import Mathlib

/-!
Shallow embedding of the `resmgr` resource-pressure monitor
(src/tools/resmgr/src/{config.rs, monitor.rs, main.rs}).

Rust `f64`/`f32` quantities (memory GB, swap GB, CPU percent) are modelled as
`ℚ`; all values in play (configured thresholds, sampled figures) are small
decimals that `f64` represents exactly, so the order comparisons agree.
Rust `u64` byte/megabyte counts and PIDs are `Nat`.  `Instant` timestamps are
`Nat` seconds; `Instant::duration_since` is truncated subtraction, matching
its saturating behaviour.  The `sysinfo` process table is a `List ProcEntry`
(a `HashMap` keyed by PID, hence the `Nodup` hypotheses on PIDs where the
claims need them).  The OS outcome of `Process::kill()` is the oracle field
`kill_succeeds`.
-/

namespace Resmgr

set_option maxRecDepth 16384

/-- Rust `str::contains` (substring, case-sensitive). -/
def strContains (s pat : String) : Bool :=
  decide (pat.data <:+: s.data)

/-! ## Configuration (config.rs) -/

/-- `Thresholds` (config.rs lines 29–43). -/
structure Thresholds where
  elevated_free_gb : ℚ
  elevated_swap_gb : ℚ
  high_free_gb : ℚ
  high_swap_gb : ℚ
  critical_free_gb : ℚ
  critical_swap_gb : ℚ

/-- `AutoKill` (config.rs lines 45–53). -/
structure AutoKill where
  idle_dev_server_minutes : Nat
  orphan_node_always : Bool
  zombie_vms : Bool

/-- `Protected` (config.rs lines 55–59). -/
structure Protected where
  processes : List String

/-- `SafeKillPatterns` (config.rs lines 61–69). -/
structure SafeKillPatterns where
  dev_servers : List String
  orphans : List String
  zombie_vms : List String

/-- `Trending` (config.rs lines 71–79). -/
structure Trending where
  enabled : Bool
  csv_path : String
  write_every_n_polls : Nat

/-- `Config` (config.rs lines 5–19).  The Rust field `protected` is renamed
`protected_list` because `protected` is a Lean keyword; the `general` section
(poll interval, log level) is omitted: no claim touches it. -/
structure Config where
  thresholds : Thresholds
  auto_kill : AutoKill
  protected_list : Protected
  safe_kill_patterns : SafeKillPatterns
  trending : Trending

/-- `Thresholds::default` (config.rs lines 95–112, 164–175). -/
def defaultThresholds : Thresholds :=
  ⟨2, 15, 1, 25, 0.5, 30⟩

/-- `default_protected_processes` (config.rs lines 126–139). -/
def default_protected_processes : List String :=
  ["VoiceInk", "Wispr Flow", "Raycast", "Rectangle Pro", "WindowServer",
   "Finder", "Dock", "Bartender", "loginwindow", "NordVPN"]

/-- `default_dev_servers` (config.rs lines 141–148). -/
def default_dev_servers : List String :=
  ["next-server", "next dev", "vite", "webpack-dev-server"]

/-- `default_zombie_vm_patterns` (config.rs lines 154–156). -/
def default_zombie_vm_patterns : List String :=
  ["com.apple.Virtualization.VirtualMachine"]

/-- `Config::default` (config.rs lines 215–226). -/
def defaultConfig : Config :=
  ⟨defaultThresholds,
   ⟨10, true, true⟩,
   ⟨default_protected_processes⟩,
   ⟨default_dev_servers, ["node"], default_zombie_vm_patterns⟩,
   ⟨true, "/tmp/resmgr_trending.csv", 2⟩⟩

/-! ## Pressure levels (monitor.rs lines 6–12, 177–189) -/

/-- `PressureLevel` (monitor.rs lines 6–12). -/
inductive PressureLevel where
  | Normal
  | Elevated
  | High
  | Critical
deriving DecidableEq, Repr

/-- Modelled from the spec: the total order Normal < Elevated < High <
Critical (§4.3 "totally ordered"); the source derives only `PartialEq`, so
the rank used to state monotonicity is the spec's. -/
def PressureLevel.severity : PressureLevel → Nat
  | .Normal => 0
  | .Elevated => 1
  | .High => 2
  | .Critical => 3

/-- `Monitor::assess_pressure` (monitor.rs lines 177–189). -/
def assess_pressure (t : Thresholds) (free_gb swap_gb : ℚ) : PressureLevel :=
  if free_gb < t.critical_free_gb ∧ swap_gb > t.critical_swap_gb then
    .Critical
  else if free_gb < t.high_free_gb ∨ swap_gb > t.high_swap_gb then
    .High
  else if free_gb < t.elevated_free_gb ∨ swap_gb > t.elevated_swap_gb then
    .Elevated
  else
    .Normal

/-! ## Process table and classifiers (monitor.rs lines 25–31, 191–239) -/

/-- One row of the `sysinfo` process table, as read in `Monitor`
(monitor.rs lines 97–105, 243–250): PID, display name, resident memory in
bytes, CPU percent, the command line already joined with spaces.  The field
`kill_succeeds` is the oracle for the OS outcome of `Process::kill()`
(monitor.rs line 268). -/
structure ProcEntry where
  pid : Nat
  name : String
  memory_bytes : Nat
  cpu_usage : ℚ
  cmd : String
  kill_succeeds : Bool
deriving DecidableEq, Repr

/-- `BROWSER_INDICATORS` (monitor.rs lines 204–213). -/
def BROWSER_INDICATORS : List String :=
  ["Brave Browser", "Google Chrome", "Chromium", "Firefox", "Safari",
   "Arc", "Microsoft Edge", "Opera"]

/-- `BROWSER_FRAMEWORK_PATHS` (monitor.rs lines 224–231). -/
def BROWSER_FRAMEWORK_PATHS : List String :=
  ["Brave Browser.app", "Google Chrome.app", "Chromium.app", "Arc.app",
   "Microsoft Edge.app", "Opera.app"]

/-- `Monitor::is_browser_process` (monitor.rs lines 203–239). -/
def is_browser_process (name cmd : String) : Bool :=
  if BROWSER_INDICATORS.any (fun b => strContains name b) then
    true
  else if strContains name "Helper" &&
      BROWSER_INDICATORS.any (fun b => strContains cmd b) then
    true
  else if BROWSER_FRAMEWORK_PATHS.any (fun path => strContains cmd path) then
    true
  else
    false

/-- `Monitor::is_protected` (monitor.rs lines 191–197). -/
def is_protected (cfg : Config) (name : String) : Bool :=
  cfg.protected_list.processes.any (fun p => strContains name p)

/-- `System::process(pid)` lookup on the cached table
(monitor.rs line 243). -/
def findProcess (procs : List ProcEntry) (pid : Nat) : Option ProcEntry :=
  procs.find? (fun p => p.pid == pid)

/-! ## `Monitor::kill_process` (monitor.rs lines 242–272) -/

/-- Which branch of `kill_process` ran: the process was not in the table,
the protected-list refusal fired, the browser safety net fired, or an
OS-level termination request was issued with the given result. -/
inductive KillOutcome where
  | notFound
  | refusedProtected
  | refusedBrowser
  | requested (os_result : Bool)
deriving DecidableEq, Repr

/-- The branch structure of `Monitor::kill_process` (monitor.rs lines
242–272), instrumented by which branch ran; `kill_process` itself is its
boolean collapse below. -/
def killProcessOutcome (cfg : Config) (procs : List ProcEntry)
    (pid : Nat) : KillOutcome :=
  match findProcess procs pid with
  | none => .notFound
  | some p =>
      if is_protected cfg p.name then .refusedProtected
      else if is_browser_process p.name p.cmd then .refusedBrowser
      else .requested p.kill_succeeds

/-- The boolean `kill_process` returns for each branch: only an issued
request reports the OS result; every refusal and a missing PID report
`false` (monitor.rs lines 254, 264, 268, 270). -/
def KillOutcome.toBool : KillOutcome → Bool
  | .requested r => r
  | _ => false

/-- Whether a branch reached the OS-level `proc.kill()` call. -/
def KillOutcome.issuesKill : KillOutcome → Bool
  | .requested _ => true
  | _ => false

/-- `Monitor::kill_process` (monitor.rs lines 242–272). -/
def kill_process (cfg : Config) (procs : List ProcEntry) (pid : Nat) : Bool :=
  (killProcessOutcome cfg procs pid).toBool

/-! ## Idle tracker (monitor.rs lines 141–156) -/

/-- Lookup in the idle tracker, a `HashMap<Pid, Instant>` modelled as an
association list. -/
def trLookup (tr : List (Nat × Nat)) (pid : Nat) : Option Nat :=
  (tr.find? (fun e => e.1 == pid)).map Prod.snd

/-- `self.idle_tracker.retain(|pid, _| current_pids.contains(pid))`
(monitor.rs lines 145–147). -/
def retainLive (procs : List ProcEntry) (tr : List (Nat × Nat)) :
    List (Nat × Nat) :=
  tr.filter (fun e => procs.any (fun p => p.pid == e.1))

/-- Body of the per-process idle loop (monitor.rs lines 150–156):
below 0.5% CPU, `entry(pid).or_insert(now)`; otherwise `remove(pid)`. -/
def trackStep (now : Nat) (tr : List (Nat × Nat)) (p : ProcEntry) :
    List (Nat × Nat) :=
  if p.cpu_usage < 0.5 then
    if (tr.find? (fun e => e.1 == p.pid)).isSome then tr
    else (p.pid, now) :: tr
  else
    tr.filter (fun e => e.1 ≠ p.pid)

/-- The idle-tracker update performed by `Monitor::sample`
(monitor.rs lines 141–156): drop dead PIDs, then run the idle loop over
every current process. -/
def updateIdleTracker (procs : List ProcEntry) (now : Nat)
    (tr : List (Nat × Nat)) : List (Nat × Nat) :=
  procs.foldl (trackStep now) (retainLive procs tr)

/-! ## Auto-kill scans (monitor.rs lines 274–391) -/

/-- The candidate filter of `kill_idle_dev_servers`'s target scan
(monitor.rs lines 285–323): skip browser-classified processes,
non-dev-server processes, protected names, and processes not idle for the
threshold; otherwise yield (pid, name, memory MB). -/
def devServerTarget (cfg : Config) (idle_tracker : List (Nat × Nat))
    (now : Nat) (p : ProcEntry) : Option (Nat × String × Nat) :=
  if is_browser_process p.name p.cmd then none
  else if !(cfg.safe_kill_patterns.dev_servers.any
      (fun pattern => strContains p.name pattern ||
        strContains p.cmd pattern)) then none
  else if is_protected cfg p.name then none
  else
    match trLookup idle_tracker p.pid with
    | some idle_since =>
        if now - idle_since ≥ cfg.auto_kill.idle_dev_server_minutes * 60 then
          some (p.pid, p.name, p.memory_bytes / 1048576)
        else none
    | none => none

/-- `Monitor::kill_idle_dev_servers` (monitor.rs lines 274–333): collect
the targets, then call `kill_process` on each and keep the successes as
(name, pid, memory MB). -/
def kill_idle_dev_servers (cfg : Config) (procs : List ProcEntry)
    (idle_tracker : List (Nat × Nat)) (now : Nat) :
    List (String × Nat × Nat) :=
  let targets := procs.filterMap (devServerTarget cfg idle_tracker now)
  targets.filterMap (fun t =>
    if kill_process cfg procs t.1 then some (t.2.1, t.1, t.2.2) else none)

/-- The candidate filter of `kill_zombie_vms`'s target scan
(monitor.rs lines 355–381): processes whose name or command line matches a
configured zombie-VM pattern, as (pid, name, memory MB). -/
def zombieVmTarget (cfg : Config) (p : ProcEntry) :
    Option (Nat × String × Nat) :=
  if cfg.safe_kill_patterns.zombie_vms.any
      (fun pattern => strContains p.name pattern ||
        strContains p.cmd pattern) then
    some (p.pid, p.name, p.memory_bytes / 1048576)
  else none

/-- `Monitor::kill_zombie_vms` (monitor.rs lines 336–391): empty when the
feature is off or a Docker backend process is present; otherwise kill every
zombie-VM-pattern match and keep the successes. -/
def kill_zombie_vms (cfg : Config) (procs : List ProcEntry) :
    List (String × Nat × Nat) :=
  if !cfg.auto_kill.zombie_vms then []
  else
    let docker_active := procs.any (fun p =>
      strContains p.name "com.docker.backend" ||
        strContains p.name "Docker Desktop")
    if docker_active then []
    else
      let targets := procs.filterMap (zombieVmTarget cfg)
      targets.filterMap (fun t =>
        if kill_process cfg procs t.1 then some (t.2.1, t.1, t.2.2) else none)

/-! ## Snapshot and recommendations (monitor.rs lines 33–47, 394–439) -/

/-- `SystemSnapshot` (monitor.rs lines 33–47). -/
structure SystemSnapshot where
  total_memory_gb : ℚ
  used_memory_gb : ℚ
  free_memory_gb : ℚ
  total_swap_gb : ℚ
  used_swap_gb : ℚ
  top_processes : List ProcEntry
  pressure : PressureLevel
  node_count : Nat
  node_total_mb : Nat
  browser_count : Nat
  browser_total_mb : Nat
  dev_server_count : Nat
  dev_server_total_mb : Nat

/-- One-decimal rendering of the swap figure in the thrashing warning,
modelling Rust's fixed-precision formatting by truncation for the
nonnegative figures it is applied to; no claim exercises its digits. -/
def fmtGb1 (q : ℚ) : String :=
  toString q.floor ++ "." ++ toString ((q * 10).floor - q.floor * 10)

/-- `Monitor::recommendations` (monitor.rs lines 394–439): the five advisory
rules, evaluated independently, pushed in this fixed order. -/
def recommendations (s : SystemSnapshot) : List String :=
  (if s.dev_server_count > 0 then
    ["Kill " ++ toString s.dev_server_count ++ " dev server(s) to free ~" ++
      toString s.dev_server_total_mb ++ "MB"]
   else []) ++
  (if s.browser_total_mb > 2000 then
    ["Browser using " ++ toString s.browser_total_mb ++ "MB across " ++
      toString s.browser_count ++ " processes — close tabs or extensions"]
   else []) ++
  (if s.node_count > 50 then
    [toString s.node_count ++ " node processes (" ++
      toString s.node_total_mb ++ "MB) — exit unused Claude Code sessions"]
   else []) ++
  (let has_vm := s.top_processes.any (fun p => strContains p.name "Virtualization")
   let has_docker := s.top_processes.any (fun p =>
     strContains p.name "Docker" || strContains p.name "docker")
   if has_vm && !has_docker then
     ["Zombie Virtualization VM detected — Docker not running but VM is"]
   else []) ++
  (if s.used_swap_gb > 10 then
    ["Swap at " ++ fmtGb1 s.used_swap_gb ++ "GB — system is memory-thrashing"]
   else [])

/-! ## Poll-loop trending guard (main.rs line 235, config.rs lines 71–79) -/

/-- Rust `%` on `u64`: the remainder, except that a zero divisor panics
(`none`). -/
def rustMod (a b : Nat) : Option Nat :=
  if b = 0 then none else some (a % b)

/-- The trending-write guard of one poll-loop iteration (main.rs line 235:
`poll_count % config.trending.write_every_n_polls == 0`); `none` is the
divide-by-zero panic that aborts the process. -/
def trendingGuard (poll_count : Nat) (cfg : Config) : Option Bool :=
  (rustMod poll_count cfg.trending.write_every_n_polls).map (fun r => r == 0)

/-- The default configuration with `trending.write_every_n_polls = 0`: a
value the deserializer accepts (config.rs lines 77–78 put no lower bound on
the `u64` field). -/
def zeroWriteConfig : Config :=
  ⟨defaultThresholds,
   ⟨10, true, true⟩,
   ⟨default_protected_processes⟩,
   ⟨default_dev_servers, ["node"], default_zombie_vm_patterns⟩,
   ⟨true, "/tmp/resmgr_trending.csv", 0⟩⟩

/-! ## Pressure-assessment theorems (claims C1 and C7) -/

/-- First-match-wins reading of the threshold chain: each level is reached
iff its own guard holds and every earlier guard failed. -/
theorem assess_pressure_cases (t : Thresholds) (free swap : ℚ) :
    (assess_pressure t free swap = .Critical ↔
       (free < t.critical_free_gb ∧ swap > t.critical_swap_gb)) ∧
    (assess_pressure t free swap = .High ↔
       (¬(free < t.critical_free_gb ∧ swap > t.critical_swap_gb) ∧
        (free < t.high_free_gb ∨ swap > t.high_swap_gb))) ∧
    (assess_pressure t free swap = .Elevated ↔
       (¬(free < t.critical_free_gb ∧ swap > t.critical_swap_gb) ∧
        ¬(free < t.high_free_gb ∨ swap > t.high_swap_gb) ∧
        (free < t.elevated_free_gb ∨ swap > t.elevated_swap_gb))) ∧
    (assess_pressure t free swap = .Normal ↔
       (¬(free < t.critical_free_gb ∧ swap > t.critical_swap_gb) ∧
        ¬(free < t.high_free_gb ∨ swap > t.high_swap_gb) ∧
        ¬(free < t.elevated_free_gb ∨ swap > t.elevated_swap_gb))) := by
  unfold assess_pressure
  split_ifs with h1 h2 h3 <;> simp_all

/-! ## Claims C1 and C7 -/

/-- C1: `assess_pressure` evaluates the threshold rules top to bottom, first
match wins — Critical iff the conjunction holds, else High iff its
disjunction, else Elevated iff its disjunction, else Normal — and under the
default thresholds: (0.4, 20) ↦ High, (3, 5) ↦ Normal, (1.5, 5) ↦ Elevated,
(0.8, 5) ↦ High, (0.3, 31) ↦ Critical. -/
theorem assess_pressure_rules (t : Thresholds) (free swap : ℚ) :
    ((assess_pressure t free swap = .Critical ↔
        (free < t.critical_free_gb ∧ swap > t.critical_swap_gb)) ∧
     (assess_pressure t free swap = .High ↔
        (¬(free < t.critical_free_gb ∧ swap > t.critical_swap_gb) ∧
         (free < t.high_free_gb ∨ swap > t.high_swap_gb))) ∧
     (assess_pressure t free swap = .Elevated ↔
        (¬(free < t.critical_free_gb ∧ swap > t.critical_swap_gb) ∧
         ¬(free < t.high_free_gb ∨ swap > t.high_swap_gb) ∧
         (free < t.elevated_free_gb ∨ swap > t.elevated_swap_gb))) ∧
     (assess_pressure t free swap = .Normal ↔
        (¬(free < t.critical_free_gb ∧ swap > t.critical_swap_gb) ∧
         ¬(free < t.high_free_gb ∨ swap > t.high_swap_gb) ∧
         ¬(free < t.elevated_free_gb ∨ swap > t.elevated_swap_gb)))) ∧
    assess_pressure defaultThresholds 0.4 20 = .High ∧
    assess_pressure defaultThresholds 3 5 = .Normal ∧
    assess_pressure defaultThresholds 1.5 5 = .Elevated ∧
    assess_pressure defaultThresholds 0.8 5 = .High ∧
    assess_pressure defaultThresholds 0.3 31 = .Critical := by
  refine ⟨assess_pressure_cases t free swap, ?_, ?_, ?_, ?_, ?_⟩ <;>
    norm_num [assess_pressure, defaultThresholds]

/-- C7: for every thresholds configuration, decreasing free memory or
increasing swap never decreases the pressure level, in the order
Normal < Elevated < High < Critical. -/
theorem assess_pressure_monotone (t : Thresholds)
    (free1 swap1 free2 swap2 : ℚ)
    (hfree : free2 ≤ free1) (hswap : swap1 ≤ swap2) :
    (assess_pressure t free1 swap1).severity ≤
      (assess_pressure t free2 swap2).severity := by
  have hc : free1 < t.critical_free_gb ∧ t.critical_swap_gb < swap1 →
      free2 < t.critical_free_gb ∧ t.critical_swap_gb < swap2 := by
    rintro ⟨h1, h2⟩
    exact ⟨lt_of_le_of_lt hfree h1, lt_of_lt_of_le h2 hswap⟩
  have hh : (free1 < t.high_free_gb ∨ t.high_swap_gb < swap1) →
      (free2 < t.high_free_gb ∨ t.high_swap_gb < swap2) := by
    rintro (h | h)
    · exact Or.inl (lt_of_le_of_lt hfree h)
    · exact Or.inr (lt_of_lt_of_le h hswap)
  have he : (free1 < t.elevated_free_gb ∨ t.elevated_swap_gb < swap1) →
      (free2 < t.elevated_free_gb ∨ t.elevated_swap_gb < swap2) := by
    rintro (h | h)
    · exact Or.inl (lt_of_le_of_lt hfree h)
    · exact Or.inr (lt_of_lt_of_le h hswap)
  unfold assess_pressure
  split_ifs <;> simp only [PressureLevel.severity] <;>
    first
    | omega
    | (exfalso; solve_by_elim [hc, hh, he])

/-- Witness for C7 at a concrete input. -/
theorem assess_pressure_monotone_witness :
    (assess_pressure defaultThresholds 3 5).severity ≤
      (assess_pressure defaultThresholds 3 6).severity :=
  assess_pressure_monotone defaultThresholds 3 5 3 6
    (le_refl 3) (by decide)


/-! ## Helper lemmas: PIDs key the process table -/

theorem pid_inj {procs : List ProcEntry}
    (h : (procs.map ProcEntry.pid).Nodup)
    {p q : ProcEntry} (hp : p ∈ procs) (hq : q ∈ procs)
    (hpq : p.pid = q.pid) : p = q :=
  List.inj_on_of_nodup_map h hp hq hpq

theorem findProcess_self {procs : List ProcEntry}
    (h : (procs.map ProcEntry.pid).Nodup)
    {p : ProcEntry} (hp : p ∈ procs) :
    findProcess procs p.pid = some p := by
  induction procs with
  | nil => cases hp
  | cons q l ih =>
      rcases List.mem_cons.mp hp with rfl | hp'
      · simp [findProcess, List.find?]
      · have hnd : q.pid ∉ l.map ProcEntry.pid ∧ (l.map ProcEntry.pid).Nodup :=
          List.nodup_cons.mp (by simpa using h)
        have hne : ¬(q.pid == p.pid) := by
          simp only [beq_iff_eq]
          exact fun e => hnd.1 (e ▸ List.mem_map_of_mem ProcEntry.pid hp')
        have := ih hnd.2 hp'
        simpa [findProcess, List.find?, hne] using this

theorem findProcess_mem {procs : List ProcEntry} {pid : Nat} {p : ProcEntry}
    (h : findProcess procs pid = some p) : p ∈ procs ∧ p.pid = pid := by
  refine ⟨List.mem_of_find?_eq_some h, ?_⟩
  have := List.find?_some h
  simpa using this

/-! ## Helper lemmas: lookup in the tracker association list -/

theorem trLookup_nil (pid : Nat) : trLookup [] pid = none := rfl

theorem trLookup_cons (e : Nat × Nat) (l : List (Nat × Nat)) (pid : Nat) :
    trLookup (e :: l) pid =
      if e.1 == pid then some e.2 else trLookup l pid := by
  by_cases h : e.1 == pid <;> simp [trLookup, List.find?, h]

/-- Filtering with a predicate that keeps every entry keyed `pid`
does not change the lookup of `pid`. -/
theorem trLookup_filter_keep {tr : List (Nat × Nat)}
    {pred : Nat × Nat → Bool} {pid : Nat}
    (h : ∀ e ∈ tr, e.1 = pid → pred e = true) :
    trLookup (tr.filter pred) pid = trLookup tr pid := by
  induction tr with
  | nil => rfl
  | cons e l ih =>
      have ih' := ih (fun x hx => h x (List.mem_cons_of_mem _ hx))
      by_cases he : e.1 = pid
      · have hkeep := h e (List.mem_cons_self e l) he
        simp [List.filter_cons, hkeep, trLookup_cons, he]
      · have hne : ¬(e.1 == pid) := by simpa using he
        by_cases hpe : pred e
        · simp [List.filter_cons, hpe, trLookup_cons, hne, ih']
        · simp [List.filter_cons, hpe, trLookup_cons, hne, ih']

/-- Filtering with a predicate that drops every entry keyed `pid`
makes the lookup of `pid` fail. -/
theorem trLookup_filter_drop {tr : List (Nat × Nat)}
    {pred : Nat × Nat → Bool} {pid : Nat}
    (h : ∀ e ∈ tr, e.1 = pid → pred e = false) :
    trLookup (tr.filter pred) pid = none := by
  induction tr with
  | nil => rfl
  | cons e l ih =>
      have ih' := ih (fun x hx => h x (List.mem_cons_of_mem _ hx))
      by_cases he : e.1 = pid
      · have hdrop := h e (List.mem_cons_self e l) he
        simp [List.filter_cons, hdrop, ih']
      · have hne : ¬(e.1 == pid) := by simpa using he
        by_cases hpe : pred e
        · simp [List.filter_cons, hpe, trLookup_cons, hne, ih']
        · simp [List.filter_cons, hpe, ih']

/-- `retainLive` keeps the entry of every PID still present and drops the
entry of every PID gone from the table. -/
theorem trLookup_retainLive (procs : List ProcEntry)
    (tr : List (Nat × Nat)) (pid : Nat) :
    trLookup (retainLive procs tr) pid =
      if procs.any (fun p => p.pid == pid) then trLookup tr pid
      else none := by
  by_cases hpres : procs.any (fun p => p.pid == pid)
  · rw [if_pos hpres]
    refine trLookup_filter_keep (fun e _ he => ?_)
    simpa [he] using hpres
  · rw [if_neg hpres]
    refine trLookup_filter_drop (fun e _ he => ?_)
    rw [he]
    by_contra hcon
    exact hpres (by simpa using hcon)

/-- One idle-loop step for process `q` does not affect the tracked entry of
any other PID. -/
theorem trLookup_trackStep_other {now : Nat} {tr : List (Nat × Nat)}
    {q : ProcEntry} {pid : Nat} (h : q.pid ≠ pid) :
    trLookup (trackStep now tr q) pid = trLookup tr pid := by
  unfold trackStep
  split_ifs with hcpu hmem
  · rfl
  · rw [trLookup_cons]
    simp [h]
  · refine trLookup_filter_keep (fun e _ he => ?_)
    simpa [he] using Ne.symm h

/-- One idle-loop step for process `p` itself: below-threshold CPU keeps an
existing entry (`or_insert`) or inserts `now`; at/above threshold removes
the entry. -/
theorem trLookup_trackStep_self {now : Nat} {tr : List (Nat × Nat)}
    {p : ProcEntry} :
    trLookup (trackStep now tr p) p.pid =
      if p.cpu_usage < 0.5 then some ((trLookup tr p.pid).getD now)
      else none := by
  unfold trackStep
  split_ifs with hcpu hmem
  · rcases ho : tr.find? (fun e => e.1 == p.pid) with _ | e
    · rw [ho] at hmem
      simp at hmem
    · simp [trLookup, ho]
  · rcases ho : tr.find? (fun e => e.1 == p.pid) with _ | e
    · rw [trLookup_cons]
      simp [trLookup, ho]
    · rw [ho] at hmem
      simp at hmem
  · exact trLookup_filter_drop (fun e _ he => by simp [he])

/-- Folding the idle loop over processes none of which carry `pid` leaves
the tracked entry of `pid` unchanged. -/
theorem trLookup_foldl_absent {now : Nat} {l : List ProcEntry} {pid : Nat}
    (h : ∀ q ∈ l, q.pid ≠ pid) (acc : List (Nat × Nat)) :
    trLookup (l.foldl (trackStep now) acc) pid = trLookup acc pid := by
  induction l generalizing acc with
  | nil => rfl
  | cons q l ih =>
      rw [List.foldl_cons, ih (fun x hx => h x (List.mem_cons_of_mem _ hx)),
        trLookup_trackStep_other (h q (List.mem_cons_self q l))]

/-- Pointwise effect of the idle loop over a duplicate-free table. -/
theorem trLookup_foldl (now : Nat) (l : List ProcEntry) (pid : Nat)
    (h : (l.map ProcEntry.pid).Nodup) (acc : List (Nat × Nat)) :
    trLookup (l.foldl (trackStep now) acc) pid =
      match l.find? (fun p => p.pid == pid) with
      | some p =>
          if p.cpu_usage < 0.5 then some ((trLookup acc pid).getD now)
          else none
      | none => trLookup acc pid := by
  induction l generalizing acc with
  | nil => rfl
  | cons q l ih =>
      have hnd : q.pid ∉ l.map ProcEntry.pid ∧ (l.map ProcEntry.pid).Nodup :=
        List.nodup_cons.mp (by simpa using h)
      by_cases hq : q.pid = pid
      · have habs : ∀ x ∈ l, x.pid ≠ pid := by
          intro x hx e
          exact hnd.1 (by rw [hq, ← e]; exact List.mem_map_of_mem ProcEntry.pid hx)
        rw [List.foldl_cons, trLookup_foldl_absent habs,
          List.find?_cons_of_pos _ (by simpa using hq)]
        subst hq
        exact trLookup_trackStep_self
      · rw [List.foldl_cons, ih hnd.2,
          List.find?_cons_of_neg _ (by simpa using hq)]
        simp only [trLookup_trackStep_other hq]

/-- Pointwise characterization of the whole idle-tracker update: after
`sample`, PID `pid` is tracked iff it is present with CPU below 0.5%, and
its timestamp is the previous one if it was already tracked, `now`
otherwise. -/
theorem updateIdleTracker_lookup (procs : List ProcEntry) (now : Nat)
    (tr : List (Nat × Nat)) (h : (procs.map ProcEntry.pid).Nodup)
    (pid : Nat) :
    trLookup (updateIdleTracker procs now tr) pid =
      match findProcess procs pid with
      | some p =>
          if p.cpu_usage < 0.5 then some ((trLookup tr pid).getD now)
          else none
      | none => none := by
  unfold updateIdleTracker
  rw [trLookup_foldl now procs pid h]
  unfold findProcess
  rcases hf : procs.find? (fun p => p.pid == pid) with _ | p
  · rw [trLookup_retainLive]
    have habs : procs.any (fun p => p.pid == pid) = false := by
      rw [List.any_eq_false]
      intro x hx
      simpa using List.find?_eq_none.mp hf x hx
    simp [habs, hf]
  · have hmem : p ∈ procs := List.mem_of_find?_eq_some hf
    have hpid : p.pid = pid := by simpa using List.find?_some hf
    rw [trLookup_retainLive]
    have hpres : procs.any (fun q => q.pid == pid) = true :=
      List.any_eq_true.mpr ⟨p, hmem, by simpa using hpid⟩
    simp [hpres, hf]

/-! ## Helper lemmas: the kill-scan candidate filters -/

theorem devServerTarget_eq_some {cfg : Config} {tr : List (Nat × Nat)}
    {now : Nat} {p : ProcEntry} {t : Nat × String × Nat} :
    devServerTarget cfg tr now p = some t ↔
      (is_browser_process p.name p.cmd = false ∧
       cfg.safe_kill_patterns.dev_servers.any
         (fun pattern => strContains p.name pattern ||
           strContains p.cmd pattern) = true ∧
       is_protected cfg p.name = false ∧
       (∃ idle_since, trLookup tr p.pid = some idle_since ∧
         cfg.auto_kill.idle_dev_server_minutes * 60 ≤ now - idle_since) ∧
       t = (p.pid, p.name, p.memory_bytes / 1048576)) := by
  unfold devServerTarget
  by_cases hb : is_browser_process p.name p.cmd
  · rw [if_pos hb]
    constructor
    · intro h
      cases h
    · rintro ⟨hb', -⟩
      rw [hb] at hb'
      cases hb'
  · rw [if_neg hb]
    have hb' : is_browser_process p.name p.cmd = false := by simpa using hb
    by_cases hdv : cfg.safe_kill_patterns.dev_servers.any
        (fun pattern => strContains p.name pattern ||
          strContains p.cmd pattern) = true
    · rw [if_neg (by simp [hdv])]
      by_cases hpr : is_protected cfg p.name
      · rw [if_pos hpr]
        constructor
        · intro h
          cases h
        · rintro ⟨-, -, hpr', -⟩
          rw [hpr] at hpr'
          cases hpr'
      · rw [if_neg hpr]
        have hpr' : is_protected cfg p.name = false := by simpa using hpr
        rcases ho : trLookup tr p.pid with - | ts
        · simp only [ho]
          constructor
          · intro h
            cases h
          · rintro ⟨-, -, -, ⟨is, his, -⟩, -⟩
            cases his
        · simp only [ho]
          by_cases hth : now - ts ≥ cfg.auto_kill.idle_dev_server_minutes * 60
          · rw [if_pos hth]
            constructor
            · intro h
              exact ⟨hb', hdv, hpr', ⟨ts, rfl, hth⟩,
                (Option.some_injective _ h).symm⟩
            · rintro ⟨-, -, -, -, rfl⟩
              rfl
          · rw [if_neg hth]
            constructor
            · intro h
              cases h
            · rintro ⟨-, -, -, ⟨is, his, hth'⟩, -⟩
              cases his
              exact absurd hth' hth
    · rw [if_pos (by simpa using hdv)]
      constructor
      · intro h
        cases h
      · rintro ⟨-, hdv', -⟩
        exact absurd hdv' hdv

theorem zombieVmTarget_eq_some {cfg : Config} {p : ProcEntry}
    {t : Nat × String × Nat} :
    zombieVmTarget cfg p = some t ↔
      (cfg.safe_kill_patterns.zombie_vms.any
         (fun pattern => strContains p.name pattern ||
           strContains p.cmd pattern) = true ∧
       t = (p.pid, p.name, p.memory_bytes / 1048576)) := by
  unfold zombieVmTarget
  by_cases hm : cfg.safe_kill_patterns.zombie_vms.any
      (fun pattern => strContains p.name pattern ||
        strContains p.cmd pattern) = true
  · rw [if_pos hm]
    constructor
    · intro h
      exact ⟨hm, (Option.some_injective _ h).symm⟩
    · rintro ⟨-, rfl⟩
      rfl
  · rw [if_neg hm]
    constructor
    · intro h
      cases h
    · rintro ⟨hm', -⟩
      exact absurd hm' hm

/-- Membership characterization of `kill_idle_dev_servers`: the returned
(name, pid, MB) triples are exactly those of table processes that are not
browser-classified, match a dev-server pattern, are not protected, have been
tracked idle for at least the configured threshold, and for which
`kill_process` returned `true`. -/
theorem mem_kill_idle_dev_servers {cfg : Config} {procs : List ProcEntry}
    {tr : List (Nat × Nat)} {now : Nat} {nm : String} {pid mem : Nat} :
    (nm, pid, mem) ∈ kill_idle_dev_servers cfg procs tr now ↔
      ∃ p ∈ procs,
        p.pid = pid ∧ p.name = nm ∧ mem = p.memory_bytes / 1048576 ∧
        is_browser_process p.name p.cmd = false ∧
        cfg.safe_kill_patterns.dev_servers.any
          (fun pattern => strContains p.name pattern ||
            strContains p.cmd pattern) = true ∧
        is_protected cfg p.name = false ∧
        (∃ idle_since, trLookup tr p.pid = some idle_since ∧
          cfg.auto_kill.idle_dev_server_minutes * 60 ≤ now - idle_since) ∧
        kill_process cfg procs pid = true := by
  unfold kill_idle_dev_servers
  simp only [List.mem_filterMap]
  constructor
  · rintro ⟨t, ⟨p, hp, ht⟩, hkill⟩
    rcases devServerTarget_eq_some.mp ht with ⟨hb, hd, hpr, hidle, rfl⟩
    split_ifs at hkill with hk
    · obtain ⟨h1, h2, h3⟩ : p.name = nm ∧ p.pid = pid ∧
          p.memory_bytes / 1048576 = mem := by
        simpa using hkill
      exact ⟨p, hp, h2, h1, h3.symm, hb, hd, hpr, hidle, h2 ▸ hk⟩
  · rintro ⟨p, hp, rfl, rfl, rfl, hb, hd, hpr, hidle, hk⟩
    refine ⟨(p.pid, p.name, p.memory_bytes / 1048576),
      ⟨p, hp, devServerTarget_eq_some.mpr ⟨hb, hd, hpr, hidle, rfl⟩⟩, ?_⟩
    simp [hk]

/-- Membership characterization of `kill_zombie_vms`: nonempty output needs
the feature enabled and no Docker backend present, and then returns exactly
the pattern-matched processes `kill_process` succeeded on. -/
theorem mem_kill_zombie_vms {cfg : Config} {procs : List ProcEntry}
    {nm : String} {pid mem : Nat} :
    (nm, pid, mem) ∈ kill_zombie_vms cfg procs ↔
      (cfg.auto_kill.zombie_vms = true ∧
       procs.any (fun p => strContains p.name "com.docker.backend" ||
         strContains p.name "Docker Desktop") = false ∧
       ∃ p ∈ procs,
         p.pid = pid ∧ p.name = nm ∧ mem = p.memory_bytes / 1048576 ∧
         cfg.safe_kill_patterns.zombie_vms.any
           (fun pattern => strContains p.name pattern ||
             strContains p.cmd pattern) = true ∧
         kill_process cfg procs pid = true) := by
  by_cases hz : cfg.auto_kill.zombie_vms
  · by_cases hd : procs.any (fun p => strContains p.name "com.docker.backend" ||
        strContains p.name "Docker Desktop")
    · have hempty : kill_zombie_vms cfg procs = [] := by
        unfold kill_zombie_vms
        simp [hz, hd]
      rw [hempty]
      simp [hd]
    · have hd' : procs.any (fun p => strContains p.name "com.docker.backend" ||
          strContains p.name "Docker Desktop") = false := by
        simpa using hd
      have hrw : kill_zombie_vms cfg procs =
          (procs.filterMap (zombieVmTarget cfg)).filterMap
            (fun t => if kill_process cfg procs t.1 then
              some (t.2.1, t.1, t.2.2) else none) := by
        unfold kill_zombie_vms
        simp [hz, hd']
      rw [hrw]
      simp only [List.mem_filterMap, hz, hd', true_and]
      constructor
      · rintro ⟨t, ⟨p, hp, ht⟩, hkill⟩
        rcases zombieVmTarget_eq_some.mp ht with ⟨hm, rfl⟩
        split_ifs at hkill with hk
        · obtain ⟨h1, h2, h3⟩ : p.name = nm ∧ p.pid = pid ∧
              p.memory_bytes / 1048576 = mem := by
            simpa using hkill
          exact ⟨p, hp, h2, h1, h3.symm, hm, h2 ▸ hk⟩
      · rintro ⟨p, hp, rfl, rfl, rfl, hm, hk⟩
        refine ⟨(p.pid, p.name, p.memory_bytes / 1048576),
          ⟨p, hp, zombieVmTarget_eq_some.mpr ⟨hm, rfl⟩⟩, ?_⟩
        simp [hk]
  · have hz' : cfg.auto_kill.zombie_vms = false := by
      simpa using hz
    have hempty : kill_zombie_vms cfg procs = [] := by
      unfold kill_zombie_vms
      simp [hz']
    rw [hempty]
    simp [hz']

/-! ## Claim C5: the idle tracker after `sample` -/

/-- C5: after the idle-tracker update of `sample`, the tracker contains
exactly the PIDs present in the table with CPU below 0.5%, each mapped to
the start of its current unbroken idle streak: an already-tracked idle PID
keeps its original timestamp, a newly idle PID gets `now`, and a PID that
is active or absent is dropped; consequently a streak's timestamp survives
the next idle poll unchanged. -/
theorem idle_tracker_after_sample (procs : List ProcEntry) (now : Nat)
    (tr : List (Nat × Nat)) (h : (procs.map ProcEntry.pid).Nodup)
    (pid : Nat) :
    (trLookup (updateIdleTracker procs now tr) pid =
      match findProcess procs pid with
      | some p =>
          if p.cpu_usage < 0.5 then some ((trLookup tr pid).getD now)
          else none
      | none => none) ∧
    (∀ procs2 now2 p2, (procs2.map ProcEntry.pid).Nodup →
      findProcess procs2 pid = some p2 → p2.cpu_usage < 0.5 →
      ∀ ts, trLookup (updateIdleTracker procs now tr) pid = some ts →
        trLookup (updateIdleTracker procs2 now2
          (updateIdleTracker procs now tr)) pid = some ts) := by
  refine ⟨updateIdleTracker_lookup procs now tr h pid, ?_⟩
  intro procs2 now2 p2 h2 hf2 hcpu2 ts hts
  rw [updateIdleTracker_lookup procs2 now2 _ h2 pid, hf2]
  simp [hcpu2, hts]

/-- Witness for C5 at a concrete input: one idle process, empty tracker. -/
theorem idle_tracker_after_sample_witness :
    trLookup (updateIdleTracker
      [⟨1, "node", 1048576, 0, "node server.js", true⟩] 5 []) 1 = some 5 := by
  have h := (idle_tracker_after_sample
    [⟨1, "node", 1048576, 0, "node server.js", true⟩] 5 [] (by decide) 1).1
  rw [h]
  norm_num [findProcess, List.find?, trLookup]

/-! ## Claim C4: exact output of `kill_idle_dev_servers` -/

/-- C4: `kill_idle_dev_servers` returns exactly the (name, pid, memory MB)
triples of table processes that are not browser-classified, match a
configured dev-server pattern by name or command line, are not protected,
have been tracked idle for at least idle_dev_server_minutes * 60 seconds,
and on which `kill_process` returned true; failed kills are absent. -/
theorem kill_idle_dev_servers_exact (cfg : Config) (procs : List ProcEntry)
    (tr : List (Nat × Nat)) (now : Nat) (nm : String) (pid mem : Nat) :
    (nm, pid, mem) ∈ kill_idle_dev_servers cfg procs tr now ↔
      ∃ p ∈ procs,
        p.pid = pid ∧ p.name = nm ∧ mem = p.memory_bytes / 1048576 ∧
        is_browser_process p.name p.cmd = false ∧
        cfg.safe_kill_patterns.dev_servers.any
          (fun pattern => strContains p.name pattern ||
            strContains p.cmd pattern) = true ∧
        is_protected cfg p.name = false ∧
        (∃ idle_since, trLookup tr p.pid = some idle_since ∧
          cfg.auto_kill.idle_dev_server_minutes * 60 ≤ now - idle_since) ∧
        kill_process cfg procs pid = true :=
  mem_kill_idle_dev_servers

/-! ## Claim C2: browser classification takes precedence -/

/-- C2: the Chromium helper name with a browser indicator in the command
line is browser-classified even when the command line contains a dev-server
pattern such as "vite", and a browser-classified process never appears in
the output of `kill_idle_dev_servers`, whatever the configured dev-server
patterns, protected list, or idle state. -/
theorem browser_precedence (cfg : Config) (procs : List ProcEntry)
    (tr : List (Nat × Nat)) (now : Nat)
    (hnodup : (procs.map ProcEntry.pid).Nodup)
    (cmd : String)
    (hcmd : ∃ b ∈ BROWSER_INDICATORS, strContains cmd b = true)
    (p : ProcEntry) (hp : p ∈ procs)
    (hbrowser : is_browser_process p.name p.cmd = true) :
    is_browser_process "Brave Browser Helper (Renderer)" cmd = true ∧
    ∀ nm mem, (nm, p.pid, mem) ∉ kill_idle_dev_servers cfg procs tr now := by
  constructor
  · have hname : BROWSER_INDICATORS.any
        (fun b => strContains "Brave Browser Helper (Renderer)" b) = true := by
      decide
    simp [is_browser_process, hname]
  · intro nm mem hmem
    rcases mem_kill_idle_dev_servers.mp hmem with
      ⟨q, hq, hqpid, -, -, hqb, -, -, -, -⟩
    have hqp : q = p := pid_inj hnodup hq hp hqpid
    rw [hqp, hbrowser] at hqb
    cases hqb

/-- Witness for C2: a Brave helper whose command line contains "vite". -/
theorem browser_precedence_witness :
    is_browser_process "Brave Browser Helper (Renderer)"
      "--type=renderer --utility-sub-type=network.mojom.NetworkService vite Brave Browser" = true ∧
    ("Brave Browser Helper (Renderer)", 7, 1) ∉
      kill_idle_dev_servers defaultConfig
        [⟨7, "Brave Browser Helper (Renderer)", 1048576, 0,
          "--type=renderer --utility-sub-type=network.mojom.NetworkService vite Brave Browser", true⟩]
        [(7, 0)] 700 := by
  have h := browser_precedence defaultConfig
    [⟨7, "Brave Browser Helper (Renderer)", 1048576, 0,
      "--type=renderer --utility-sub-type=network.mojom.NetworkService vite Brave Browser", true⟩]
    [(7, 0)] 700 (by decide)
    "--type=renderer --utility-sub-type=network.mojom.NetworkService vite Brave Browser"
    (by decide)
    ⟨7, "Brave Browser Helper (Renderer)", 1048576, 0,
      "--type=renderer --utility-sub-type=network.mojom.NetworkService vite Brave Browser", true⟩
    (List.mem_cons_self _ _) (by decide)
  exact ⟨h.1, h.2 "Brave Browser Helper (Renderer)" 1⟩

/-! ## Claim C3: protected processes are never terminated -/

/-- C3: a process whose name matches a protected-list entry is never
terminated by any auto-kill operation: `kill_process` on its PID returns
false without reaching the OS kill call, and no triple carrying its PID
appears in `kill_idle_dev_servers` or `kill_zombie_vms` output. -/
theorem protected_never_killed (cfg : Config) (procs : List ProcEntry)
    (tr : List (Nat × Nat)) (now : Nat)
    (hnodup : (procs.map ProcEntry.pid).Nodup)
    (p : ProcEntry) (hp : p ∈ procs)
    (hprot : is_protected cfg p.name = true) :
    kill_process cfg procs p.pid = false ∧
    (killProcessOutcome cfg procs p.pid).issuesKill = false ∧
    (∀ nm mem, (nm, p.pid, mem) ∉ kill_idle_dev_servers cfg procs tr now) ∧
    (∀ nm mem, (nm, p.pid, mem) ∉ kill_zombie_vms cfg procs) := by
  have hfind := findProcess_self hnodup hp
  have houtcome : killProcessOutcome cfg procs p.pid = .refusedProtected := by
    unfold killProcessOutcome
    rw [hfind]
    simp [hprot]
  have hkf : kill_process cfg procs p.pid = false := by
    unfold kill_process
    rw [houtcome]
    rfl
  refine ⟨hkf, by rw [houtcome]; rfl, ?_, ?_⟩
  · intro nm mem hmem
    rcases mem_kill_idle_dev_servers.mp hmem with
      ⟨q, hq, hqpid, -, -, -, -, hqprot, -, -⟩
    have hqp : q = p := pid_inj hnodup hq hp hqpid
    rw [hqp, hprot] at hqprot
    cases hqprot
  · intro nm mem hmem
    rcases mem_kill_zombie_vms.mp hmem with
      ⟨-, -, q, hq, hqpid, -, -, -, hkill⟩
    rw [hkf] at hkill
    cases hkill

/-- Witness for C3: "Finder" under the default protected list. -/
theorem protected_never_killed_witness :
    kill_process defaultConfig [⟨3, "Finder", 1048576, 0, "", true⟩] 3 = false ∧
    ("Finder", 3, 1) ∉ kill_zombie_vms defaultConfig
      [⟨3, "Finder", 1048576, 0, "", true⟩] := by
  have h := protected_never_killed defaultConfig
    [⟨3, "Finder", 1048576, 0, "", true⟩] [] 0 (by decide)
    ⟨3, "Finder", 1048576, 0, "", true⟩ (List.mem_cons_self _ _) (by decide)
  exact ⟨h.1, h.2.2.2 "Finder" 1⟩

/-! ## Claim C6: zombie-VM suppression -/

/-- C6: `kill_zombie_vms` is empty when the feature is disabled and when any
process name contains "com.docker.backend" or "Docker Desktop"; only when
neither holds does it return exactly the zombie-VM-pattern matches on which
`kill_process` succeeded. -/
theorem kill_zombie_vms_spec (cfg : Config) (procs : List ProcEntry) :
    (cfg.auto_kill.zombie_vms = false → kill_zombie_vms cfg procs = []) ∧
    ((∃ p ∈ procs, strContains p.name "com.docker.backend" = true ∨
        strContains p.name "Docker Desktop" = true) →
      kill_zombie_vms cfg procs = []) ∧
    (∀ nm pid mem, (nm, pid, mem) ∈ kill_zombie_vms cfg procs ↔
      (cfg.auto_kill.zombie_vms = true ∧
       procs.any (fun p => strContains p.name "com.docker.backend" ||
         strContains p.name "Docker Desktop") = false ∧
       ∃ p ∈ procs,
         p.pid = pid ∧ p.name = nm ∧ mem = p.memory_bytes / 1048576 ∧
         cfg.safe_kill_patterns.zombie_vms.any
           (fun pattern => strContains p.name pattern ||
             strContains p.cmd pattern) = true ∧
         kill_process cfg procs pid = true)) := by
  refine ⟨?_, ?_, fun nm pid mem => mem_kill_zombie_vms⟩
  · intro hz
    unfold kill_zombie_vms
    simp [hz]
  · rintro ⟨p, hp, hdp⟩
    have hd : procs.any (fun p => strContains p.name "com.docker.backend" ||
        strContains p.name "Docker Desktop") = true := by
      refine List.any_eq_true.mpr ⟨p, hp, ?_⟩
      rcases hdp with h | h <;> simp [h]
    unfold kill_zombie_vms
    simp [hd]

/-- Witness for C6: feature disabled, and separately a Docker backend
present with a pattern-matching zombie candidate. -/
theorem kill_zombie_vms_spec_witness :
    kill_zombie_vms
      ⟨defaultThresholds, ⟨10, true, false⟩, ⟨default_protected_processes⟩,
       ⟨default_dev_servers, ["node"], default_zombie_vm_patterns⟩,
       ⟨true, "/tmp/resmgr_trending.csv", 2⟩⟩ [] = [] ∧
    kill_zombie_vms defaultConfig
      [⟨1, "com.docker.backend", 1048576, 0, "", true⟩,
       ⟨2, "com.apple.Virtualization.VirtualMachine", 1048576, 0, "", true⟩]
      = [] := by
  constructor
  · exact (kill_zombie_vms_spec _ []).1 rfl
  · exact (kill_zombie_vms_spec defaultConfig _).2.1
      ⟨⟨1, "com.docker.backend", 1048576, 0, "", true⟩,
        List.mem_cons_self _ _, Or.inl (by decide)⟩

/-! ## Claim C10: killing an unknown PID -/

/-- C10: when the PID is not in the cached table, `kill_process` returns
false, reaches neither refusal log nor the OS kill call, and its return
value is indistinguishable from a protected-list or browser-safety-net
refusal. -/
theorem kill_process_missing_pid (cfg : Config) (procs : List ProcEntry)
    (pid : Nat) (h : findProcess procs pid = none) :
    kill_process cfg procs pid = false ∧
    killProcessOutcome cfg procs pid = .notFound ∧
    (killProcessOutcome cfg procs pid).issuesKill = false ∧
    KillOutcome.toBool .notFound = KillOutcome.toBool .refusedProtected ∧
    KillOutcome.toBool .notFound = KillOutcome.toBool .refusedBrowser := by
  have ho : killProcessOutcome cfg procs pid = .notFound := by
    unfold killProcessOutcome
    rw [h]
  exact ⟨by unfold kill_process; rw [ho]; rfl, ho, by rw [ho]; rfl, rfl, rfl⟩

/-- Witness for C10: an empty table. -/
theorem kill_process_missing_pid_witness :
    kill_process defaultConfig [] 1 = false :=
  (kill_process_missing_pid defaultConfig [] 1 rfl).1

/-! ## Claim C8: the poll loop's unguarded remainder -/

/-- C8 (evaluating the code at the failing configuration): with
`write_every_n_polls = 0` — a value the deserializer accepts — the trending
guard `poll_count % write_every_n_polls == 0` of the first loop iteration
(and of every later one) is a Rust remainder with divisor zero, which
panics and kills the process, so the loop does not survive every loadable
configuration. -/
theorem trending_guard_zero_divisor_panics :
    trendingGuard 1 zeroWriteConfig = none ∧
    ∀ poll_count : Nat, trendingGuard poll_count zeroWriteConfig = none :=
  ⟨rfl, fun _ => rfl⟩

/-! ## Claim C9: the recommendation rules -/

/-- C9: `recommendations` is a pure function of the snapshot producing its
strings in the fixed rule order — dev-server suggestion iff
dev_server_count > 0, browser warning iff browser_total_mb > 2000, node
warning iff node_count > 50, zombie-VM flag iff a top-process name contains
"Virtualization" and none contains "Docker" or "docker", thrashing warning
iff used_swap_gb > 10 — and on every scenario snapshot with browser 2500 MB
over 4 processes and nothing else firing it returns exactly the browser
warning citing 2500 and 4. -/
theorem recommendations_spec (s : SystemSnapshot) :
    (∃ l1 l2 l3 l4 l5,
      recommendations s = l1 ++ l2 ++ l3 ++ l4 ++ l5 ∧
      (l1 ≠ [] ↔ 0 < s.dev_server_count) ∧
      (l2 ≠ [] ↔ 2000 < s.browser_total_mb) ∧
      (l3 ≠ [] ↔ 50 < s.node_count) ∧
      (l4 ≠ [] ↔
        (s.top_processes.any
           (fun p => strContains p.name "Virtualization") = true ∧
         s.top_processes.any (fun p => strContains p.name "Docker" ||
           strContains p.name "docker") = false)) ∧
      (l5 ≠ [] ↔ 10 < s.used_swap_gb)) ∧
    (s.browser_total_mb = 2500 → s.browser_count = 4 → s.node_count = 0 →
     s.dev_server_count = 0 → s.used_swap_gb = 2 →
     s.top_processes.any (fun p => strContains p.name "Virtualization") = false →
     recommendations s =
       ["Browser using 2500MB across 4 processes — close tabs or extensions"]) := by
  constructor
  · simp only [recommendations]
    refine ⟨_, _, _, _, _, rfl, ?_, ?_, ?_, ?_, ?_⟩
    · split_ifs with h <;> simp [h]
    · split_ifs with h <;> simp [h]
    · split_ifs with h <;> simp [h]
    · split_ifs with h <;> simp_all [Bool.and_eq_true, Bool.not_eq_true'] <;>
        exact h
    · split_ifs with h <;> simp [h]
  · intro h1 h2 h3 h4 h5 h6
    unfold recommendations
    rw [h1, h2, h3, h4, h5, h6]
    norm_num
    rfl

/-- Witness for C9 at a concrete snapshot. -/
theorem recommendations_spec_witness :
    recommendations ⟨16, 10, 6, 8, 2, [], .Normal, 0, 0, 4, 2500, 0, 0⟩ =
      ["Browser using 2500MB across 4 processes — close tabs or extensions"] :=
  (recommendations_spec _).2 rfl rfl rfl rfl rfl rfl

end Resmgr
